import Mathlib

/-!
Shallow embedding of the rotor actor-framework core (`src/rotor/actor_base.cpp`,
`include/rotor/message.hpp`, `include/rotor/messages.hpp`) and proofs about it.

Modelling conventions:
* machine state mutated by a method is threaded explicitly through an
  `actor_base_t` record;
* `send<...>` calls and `reply_to` calls are recorded as an explicit list of
  emitted `Effect`s, in emission order;
* a C++ `assert` is recorded in the `assertOk` flag of the result: the flag is
  `false` exactly when the corresponding assertion would fire;
* plugin virtual methods (`handle_init`, `handle_shutdown`, ...) are plugin
  code external to the sources, so a plugin is a record of its identity, its
  activity flag (`plugin->actor` being set) and the pure outcome functions of
  those methods;
* `std::set` of plugin identities becomes `Finset Nat`; `std::deque` /
  `std::list` of plugins becomes `List plugin_t` in the same order.
-/

/-- Actor lifecycle states, as used by `actor_base.cpp` (`state_t`). -/
inductive state_t where
  | UNKNOWN
  | NEW
  | INITIALIZING
  | INITIALIZED
  | OPERATIONAL
  | SHUTTING_DOWN
  | SHUTTED_DOWN
  deriving DecidableEq, Repr

/-- Result of a plugin handling a subscription-related message
(`processing_result_t`). -/
inductive processing_result_t where
  | IGNORED
  | CONSUMED
  | FINISHED
  deriving DecidableEq, Repr

/-- An address: an identity token owned by exactly one supervisor.  The
`supervisor` field models the supervisor back-reference compared by pointer in
`&addr->supervisor == this`; supervisors are identified by a `Nat`. -/
structure Address where
  supervisor : Nat
  id : Nat
  deriving DecidableEq, Repr

/-- A handler: `h->actor_ptr->address` is the owning actor's address. -/
structure handler_t where
  actorAddress : Address
  id : Nat
  deriving DecidableEq, Repr

/-- A subscription point `{handler, address}` (`subscription_point_t`). -/
structure subscription_point_t where
  handler : handler_t
  address : Address
  deriving DecidableEq, Repr

/-- Opaque completion callback (`payload::callback_ptr_t`). -/
abbrev Callback : Type := Nat

/-- Payload of a subscription confirmation (`payload::subscription_confirmation_t`). -/
structure subscription_confirmation_t where
  point : subscription_point_t
  deriving DecidableEq, Repr

/-- Payload of an unsubscription confirmation
(`payload::unsubscription_confirmation_t`): a point plus an optional callback. -/
structure unsubscription_confirmation_t where
  point : subscription_point_t
  callback : Option Callback
  deriving DecidableEq

/-- A plugin, as observed by `actor_base.cpp`: an identity tag, the activity
flag (whether `plugin->actor` is set), and the outcomes of its virtual
handlers.  `handle_init` / `handle_shutdown` receive the raw pointer of the
stored request (`init_request.get()`), modelled as an `Option Nat` request
token. -/
structure plugin_t where
  identity : Nat
  actor : Bool
  handleInit : Option Nat → Bool
  handleShutdown : Option Nat → Bool
  handleSubscription : subscription_confirmation_t → processing_result_t
  handleUnsubscription : unsubscription_confirmation_t → processing_result_t

/-- The observable side effects of the `actor_base_t` methods: messages sent
via `send<...>` and replies via `reply_to`, plus the trace events of
`deactivate_plugins` (insertion into `deactivating_plugins` and the
`plugin->deactivate()` call). -/
inductive Effect where
  | replyInit (request : Nat)
  | replyShutdown (request : Nat)
  | shutdownTrigger (dest : Address) (actorAddress : Address)
  | unsubscriptionConfirmation (dest : Address) (point : subscription_point_t)
      (callback : Option Callback)
  | externalUnsubscription (dest : Address) (point : subscription_point_t)
  | insertDeactivating (identity : Nat)
  | pluginDeactivate (identity : Nat)
  deriving DecidableEq

/-- The mutable per-actor state from `actor_base_t` that the translated
methods read and write.  `selfId` is the supervisor identity of `this`, used
by the `&addr->supervisor == this` comparison in `unsubscribe`;
`supervisorAddress` is `supervisor->get_address()`. -/
structure actor_base_t where
  address : Address
  supervisorAddress : Address
  selfId : Nat
  state : state_t
  plugins : List plugin_t
  init_plugins : List plugin_t
  shutdown_plugins : List plugin_t
  subscription_plugins : List plugin_t
  unsubscription_plugins : List plugin_t
  init_request : Option Nat
  shutdown_request : Option Nat
  activating_plugins : Finset Nat
  deactivating_plugins : Finset Nat
  unlink_timeout : Option Nat
  linked_clients : Finset (Address × Address)

/-- Result of one translated method: whether every C++ `assert` on the
executed path held, the updated actor state, and the effects emitted in
order. -/
structure StepResult where
  assertOk : Bool
  actor : actor_base_t
  effects : List Effect

/-- `actor_base_t::do_shutdown`: asserts the state is neither `NEW` nor
`UNKNOWN` and sends one `shutdown_trigger_t{address}` to the supervisor's
address.  No actor field is written. -/
def do_shutdown (a : actor_base_t) : StepResult :=
  { assertOk := decide (a.state ≠ state_t.NEW) && decide (a.state ≠ state_t.UNKNOWN),
    actor := a,
    effects := [Effect.shutdownTrigger a.supervisorAddress a.address] }

/-- `actor_base_t::unsubscribe(handler, address, callback)`: the destination is
the handler's owning actor's address; if the address belongs to this
supervisor, send `unsubscription_confirmation_t{point, callback}`, otherwise
assert the callback is absent and send `external_unsubscription_t{point}`. -/
def unsubscribe (a : actor_base_t) (h : handler_t) (addr : Address)
    (callback : Option Callback) : StepResult :=
  let dest := h.actorAddress
  let point : subscription_point_t := ⟨h, addr⟩
  if addr.supervisor = a.selfId then
    { assertOk := true, actor := a,
      effects := [Effect.unsubscriptionConfirmation dest point callback] }
  else
    { assertOk := decide (callback = none), actor := a,
      effects := [Effect.externalUnsubscription dest point] }

/-- The `while` loop shared by `init_continue` (directly) and
`shutdown_continue` (on the reversed sequence): while the sequence is
non-empty, look at its first plugin; if the handler returns `true`, pop it and
continue, otherwise break. -/
def frontWalk (f : plugin_t → Bool) : List plugin_t → List plugin_t
  | [] => []
  | p :: rest => if f p then frontWalk f rest else p :: rest

/-- `actor_base_t::init_start`: set the state to `INITIALIZING`. -/
def init_start (a : actor_base_t) : actor_base_t :=
  { a with state := state_t.INITIALIZING }

/-- `actor_base_t::on_start`: set the state to `OPERATIONAL`. -/
def on_start (a : actor_base_t) : actor_base_t :=
  { a with state := state_t.OPERATIONAL }

/-- `actor_base_t::shutdown_start`: set the state to `SHUTTING_DOWN`. -/
def shutdown_start (a : actor_base_t) : actor_base_t :=
  { a with state := state_t.SHUTTING_DOWN }

/-- `actor_base_t::init_finish`: reply to the stored init request
(`reply_to(*init_request)` dereferences the stored pointer, so the reply
effect exists exactly when the request is stored), clear it, and set the state
to `INITIALIZED`. -/
def init_finish (a : actor_base_t) : StepResult :=
  { assertOk := true,
    actor := { a with init_request := none, state := state_t.INITIALIZED },
    effects := a.init_request.toList.map Effect.replyInit }

/-- `actor_base_t::shutdown_finish`: if a shutdown request is stored, reply to
it and clear it (it may be absent for a root supervisor); in either case set
the state to `SHUTTED_DOWN`. -/
def shutdown_finish (a : actor_base_t) : StepResult :=
  { assertOk := true,
    actor := { a with shutdown_request := none, state := state_t.SHUTTED_DOWN },
    effects := a.shutdown_request.toList.map Effect.replyShutdown }

/-- `actor_base_t::init_continue`: asserts `state == INITIALIZING`, walks
`init_plugins` from the front popping plugins whose
`handle_init(init_request.get())` returns `true`, stopping at the first
`false`; calls `init_finish()` exactly when the list has become empty. -/
def init_continue (a : actor_base_t) : StepResult :=
  let ok := decide (a.state = state_t.INITIALIZING)
  let rest := frontWalk (fun p => p.handleInit a.init_request) a.init_plugins
  let a2 := { a with init_plugins := rest }
  if rest.isEmpty then
    let r := init_finish a2
    { r with assertOk := ok && r.assertOk }
  else
    { assertOk := ok, actor := a2, effects := [] }

/-- `actor_base_t::shutdown_continue`: asserts `state == SHUTTING_DOWN`, walks
`shutdown_plugins` from the back popping plugins whose
`handle_shutdown(shutdown_request.get())` returns `true`, stopping at the
first `false`; calls `shutdown_finish()` exactly when the list has become
empty.  The C++ loop reads `back()` and `pop_back()`; it is modelled by
walking the reversed sequence from the front. -/
def shutdown_continue (a : actor_base_t) : StepResult :=
  let ok := decide (a.state = state_t.SHUTTING_DOWN)
  let rest :=
    (frontWalk (fun p => p.handleShutdown a.shutdown_request)
      a.shutdown_plugins.reverse).reverse
  let a2 := { a with shutdown_plugins := rest }
  if rest.isEmpty then
    let r := shutdown_finish a2
    { r with assertOk := ok && r.assertOk }
  else
    { assertOk := ok, actor := a2, effects := [] }

/-- Loop body of `actor_base_t::deactivate_plugins`, walking the given
sequence (the reversed plugin list): a plugin whose `actor` pointer is still
set has its identity inserted into `deactivating_plugins` and then its
`deactivate()` called; an inactive plugin is skipped. -/
def deactivateLoop : Finset Nat → List plugin_t → Finset Nat × List Effect
  | d, [] => (d, [])
  | d, p :: rest =>
    if p.actor then
      let r := deactivateLoop (insert p.identity d) rest
      (r.1, Effect.insertDeactivating p.identity ::
              Effect.pluginDeactivate p.identity :: r.2)
    else
      deactivateLoop d rest

/-- `actor_base_t::deactivate_plugins`: iterate `plugins` in reverse order
with the loop above. -/
def deactivate_plugins (a : actor_base_t) : StepResult :=
  let r := deactivateLoop a.deactivating_plugins a.plugins.reverse
  { assertOk := true,
    actor := { a with deactivating_plugins := r.1 },
    effects := r.2 }

/-- `actor_base_t::commit_plugin_activation`: on success erase the plugin's
identity from `activating_plugins`; on failure run `deactivate_plugins()`. -/
def commit_plugin_activation (a : actor_base_t) (p : plugin_t)
    (success : Bool) : StepResult :=
  if success then
    { assertOk := true,
      actor := { a with activating_plugins := a.activating_plugins.erase p.identity },
      effects := [] }
  else
    deactivate_plugins a

/-- `actor_base_t::commit_plugin_deactivation`: erase the plugin's identity
from `deactivating_plugins`. -/
def commit_plugin_deactivation (a : actor_base_t) (p : plugin_t) : actor_base_t :=
  { a with deactivating_plugins := a.deactivating_plugins.erase p.identity }

/-- The assertion of `actor_base_t::~actor_base_t`: when
`deactivating_plugins` is non-empty the destructor takes one of the stored
identities `p` and asserts `!p`, which fails; so the assertion holds exactly
when the set is empty. -/
def actor_destructor_assert (a : actor_base_t) : Bool :=
  decide (a.deactivating_plugins = ∅)

/-- The static `poll` helper of `actor_base.cpp`, in accumulator form.  The
first list is the part still to scan, from the plugin currently under the
reverse iterator (the latest-installed unscanned plugin) towards the front;
the second is the already-scanned kept plugins, in their original order.
`IGNORED` keeps the plugin and moves to the previous one; `CONSUMED` returns
with the remaining part of the slot intact; `FINISHED` erases exactly the
current plugin and continues with the previous one. -/
def pollAux (f : plugin_t → processing_result_t) :
    List plugin_t → List plugin_t → List plugin_t
  | [], kept => kept
  | p :: ps, kept =>
    match f p with
    | processing_result_t.IGNORED => pollAux f ps (p :: kept)
    | processing_result_t.CONSUMED => ps.reverse ++ p :: kept
    | processing_result_t.FINISHED => pollAux f ps kept

/-- The static `poll` of `actor_base.cpp`: scan the slot in reverse order
(last installed plugin first). -/
def poll (plugins : List plugin_t) (f : plugin_t → processing_result_t) :
    List plugin_t :=
  pollAux f plugins.reverse []

/-- `actor_base_t::on_subscription`: poll `subscription_plugins` with each
plugin's `handle_subscription` on the received confirmation. -/
def on_subscription (a : actor_base_t) (m : subscription_confirmation_t) :
    StepResult :=
  let slot := poll a.subscription_plugins (fun p => p.handleSubscription m)
  { assertOk := true,
    actor := { a with subscription_plugins := slot },
    effects := [] }

/-- `actor_base_t::on_unsubscription`: poll `unsubscription_plugins` with each
plugin's `handle_unsubscription` on the received confirmation. -/
def on_unsubscription (a : actor_base_t) (m : unsubscription_confirmation_t) :
    StepResult :=
  let slot := poll a.unsubscription_plugins (fun p => p.handleUnsubscription m)
  { assertOk := true,
    actor := { a with unsubscription_plugins := slot },
    effects := [] }

/-- Reply of the link-request handler. -/
inductive LinkReply where
  | linkResponse
  | actorNotLinkable
  deriving DecidableEq, Repr

/-- Modelled from the spec: `actor_base_t::on_link_request` exists in
`actor_base.cpp` only as commented-out code, so the handler is modelled from
the spec (§4.9), which matches that block: on `link_request{client_addr}`
delivered to `server_addr`, if the server's `unlink_timeout` is configured,
record the linkage `(server_addr, client_addr)` in `linked_clients` and reply
with `link_response`; otherwise reply with the `actor_not_linkable` error. -/
def on_link_request (a : actor_base_t) (server_addr client_addr : Address) :
    actor_base_t × LinkReply :=
  match a.unlink_timeout with
  | some _ =>
    ({ a with linked_clients := insert (server_addr, client_addr) a.linked_clients },
     LinkReply.linkResponse)
  | none => (a, LinkReply.actorNotLinkable)

/-- The successor relation of the lifecycle finite state machine claimed by
the spec: the monotone chain
`NEW → INITIALIZING → INITIALIZED → OPERATIONAL → SHUTTING_DOWN → SHUTTED_DOWN`
with the single exception `INITIALIZING → SHUTTING_DOWN` on error. -/
def lifecycleSucc : state_t → state_t → Bool
  | state_t.NEW, state_t.INITIALIZING => true
  | state_t.INITIALIZING, state_t.INITIALIZED => true
  | state_t.INITIALIZED, state_t.OPERATIONAL => true
  | state_t.OPERATIONAL, state_t.SHUTTING_DOWN => true
  | state_t.SHUTTING_DOWN, state_t.SHUTTED_DOWN => true
  | state_t.INITIALIZING, state_t.SHUTTING_DOWN => true
  | _, _ => false

/-- Modelled from the spec: the driver of the lifecycle entry points (the
supervisor and plugin code invoking them) is not part of the sources; per the
spec (§4.6, §3) each entry point is invoked in the state the lifecycle FSM
prescribes: `init_start` on a `NEW` actor, `init_finish` while
`INITIALIZING`, `on_start` once `INITIALIZED`, `shutdown_start` from
`OPERATIONAL` or — on error — from `INITIALIZING`, `shutdown_finish` while
`SHUTTING_DOWN`.  Each step applies the corresponding translated method. -/
inductive LifecycleStep : actor_base_t → actor_base_t → Prop where
  | stepInitStart (a : actor_base_t) :
      a.state = state_t.NEW → LifecycleStep a (init_start a)
  | stepInitFinish (a : actor_base_t) :
      a.state = state_t.INITIALIZING → LifecycleStep a (init_finish a).actor
  | stepOnStart (a : actor_base_t) :
      a.state = state_t.INITIALIZED → LifecycleStep a (on_start a)
  | stepShutdownStart (a : actor_base_t) :
      a.state = state_t.OPERATIONAL ∨ a.state = state_t.INITIALIZING →
      LifecycleStep a (shutdown_start a)
  | stepShutdownFinish (a : actor_base_t) :
      a.state = state_t.SHUTTING_DOWN → LifecycleStep a (shutdown_finish a).actor

/-- The message envelope of `include/rotor/message.hpp`: `message_t<T>`
derives from the member-less `message_base_t` and holds exactly a payload;
its constructor forwards all constructor arguments to the payload. -/
structure message_t (T : Type) where
  payload : T
  deriving DecidableEq, Repr

/-- Following the spec's words, for the refinement comparison of claim C7
only: the spec describes a message as an envelope of exactly a destination
address together with a payload. -/
structure SpecMessage (T : Type) where
  destination : Address
  payload : T
  deriving DecidableEq, Repr

/-- Concrete plugin whose handlers always succeed / ignore; used by witnesses. -/
def pluginYes : plugin_t :=
  { identity := 1, actor := true,
    handleInit := fun _ => true, handleShutdown := fun _ => true,
    handleSubscription := fun _ => processing_result_t.IGNORED,
    handleUnsubscription := fun _ => processing_result_t.IGNORED }

/-- Concrete plugin whose handlers suspend / finish; inactive; used by witnesses. -/
def pluginNo : plugin_t :=
  { identity := 2, actor := false,
    handleInit := fun _ => false, handleShutdown := fun _ => false,
    handleSubscription := fun _ => processing_result_t.FINISHED,
    handleUnsubscription := fun _ => processing_result_t.FINISHED }

/-- Concrete plugin that consumes subscription messages; used by witnesses. -/
def pluginEat : plugin_t :=
  { identity := 3, actor := true,
    handleInit := fun _ => true, handleShutdown := fun _ => true,
    handleSubscription := fun _ => processing_result_t.CONSUMED,
    handleUnsubscription := fun _ => processing_result_t.CONSUMED }

/-- Concrete actor fixture used by the witness theorems. -/
def sampleActor (s : state_t) : actor_base_t :=
  { address := ⟨0, 1⟩, supervisorAddress := ⟨0, 0⟩, selfId := 0,
    state := s,
    plugins := [pluginYes, pluginNo, pluginEat],
    init_plugins := [pluginYes, pluginNo],
    shutdown_plugins := [pluginNo, pluginYes],
    subscription_plugins := [pluginYes, pluginEat, pluginNo],
    unsubscription_plugins := [pluginYes, pluginEat, pluginNo],
    init_request := some 7, shutdown_request := some 9,
    activating_plugins := ∅, deactivating_plugins := ∅,
    unlink_timeout := some 5, linked_clients := ∅ }

/-- Concrete subscription confirmation used by the witness theorems. -/
def sampleSubMsg : subscription_confirmation_t :=
  ⟨⟨⟨⟨0, 1⟩, 4⟩, ⟨0, 2⟩⟩⟩

/-- Concrete unsubscription confirmation used by the witness theorems. -/
def sampleUnsubMsg : unsubscription_confirmation_t :=
  ⟨⟨⟨⟨0, 1⟩, 4⟩, ⟨0, 2⟩⟩, none⟩

/-- The plugins a `poll` scan keeps among those it examines: exactly the ones
whose handler did not answer `FINISHED`. -/
def keepFn (f : plugin_t → processing_result_t) (p : plugin_t) : Bool :=
  decide (f p ≠ processing_result_t.FINISHED)

/-- The front-consuming plugin walk is `List.dropWhile`. -/
theorem frontWalk_eq_dropWhile (f : plugin_t → Bool) (l : List plugin_t) :
    frontWalk f l = l.dropWhile f := by
  induction l with
  | nil => rfl
  | cons p rest ih => cases h : f p <;> simp [frontWalk, h, ih]

/-- The head of a `dropWhile` result falsifies the predicate. -/
theorem head?_dropWhile_false {α : Type} (f : α → Bool) (l : List α) (x : α)
    (h : (l.dropWhile f).head? = some x) : f x = false := by
  induction l with
  | nil => simp at h
  | cons q rest ih =>
    cases hq : f q
    · rw [List.dropWhile_cons_of_neg (by simp [hq])] at h
      simp only [List.head?_cons, Option.some.injEq] at h
      rw [← h]; exact hq
    · rw [List.dropWhile_cons_of_pos (by simp [hq])] at h
      exact ih h

/-- A member of a `takeWhile` result satisfies the predicate. -/
theorem mem_takeWhile_true {α : Type} (f : α → Bool) (l : List α) (x : α)
    (h : x ∈ l.takeWhile f) : f x = true :=
  List.mem_takeWhile_imp h

/-- A `pollAux` scan over plugins none of which consume keeps exactly the
non-`FINISHED` ones, in order, in front of the accumulated kept plugins. -/
theorem pollAux_no_consumed (f : plugin_t → processing_result_t)
    (rs : List plugin_t) :
    ∀ kept, (∀ p ∈ rs, f p ≠ processing_result_t.CONSUMED) →
      pollAux f rs kept = rs.reverse.filter (keepFn f) ++ kept := by
  induction rs with
  | nil => intro kept _; simp [pollAux]
  | cons p ps ih =>
    intro kept h
    have hp : f p ≠ processing_result_t.CONSUMED := h p (by simp)
    have hps : ∀ q ∈ ps, f q ≠ processing_result_t.CONSUMED :=
      fun q hq => h q (by simp [hq])
    cases hf : f p with
    | IGNORED =>
      simp only [pollAux, hf]
      rw [ih (p :: kept) hps]
      simp [List.filter_append, keepFn, hf]
    | CONSUMED => exact absurd hf hp
    | FINISHED =>
      simp only [pollAux, hf]
      rw [ih kept hps]
      simp [List.filter_append, keepFn, hf]

/-- A `pollAux` scan first passes over a non-consuming part of the plugins to
scan, keeping its non-`FINISHED` members. -/
theorem pollAux_split (f : plugin_t → processing_result_t)
    (rs : List plugin_t) :
    ∀ ts kept, (∀ p ∈ rs, f p ≠ processing_result_t.CONSUMED) →
      pollAux f (rs ++ ts) kept
        = pollAux f ts (rs.reverse.filter (keepFn f) ++ kept) := by
  induction rs with
  | nil => intro ts kept _; simp
  | cons p ps ih =>
    intro ts kept h
    have hp : f p ≠ processing_result_t.CONSUMED := h p (by simp)
    have hps : ∀ q ∈ ps, f q ≠ processing_result_t.CONSUMED :=
      fun q hq => h q (by simp [hq])
    cases hf : f p with
    | IGNORED =>
      simp only [List.cons_append, pollAux, hf, List.append_eq]
      rw [ih ts (p :: kept) hps]
      congr 1
      simp [List.filter_append, keepFn, hf]
    | CONSUMED => exact absurd hf hp
    | FINISHED =>
      simp only [List.cons_append, pollAux, hf, List.append_eq]
      rw [ih ts kept hps]
      congr 1
      simp [List.filter_append, keepFn, hf]

/-- When no scanned plugin consumes, `poll` filters out exactly the
`FINISHED` plugins. -/
theorem poll_eq_filter (f : plugin_t → processing_result_t)
    (l : List plugin_t) (h : ∀ p ∈ l, f p ≠ processing_result_t.CONSUMED) :
    poll l f = l.filter (keepFn f) := by
  unfold poll
  rw [pollAux_no_consumed f l.reverse [] (fun p hp => h p (List.mem_reverse.mp hp))]
  simp

/-- When the last consuming plugin is `c`, `poll` stops at `c`: everything in
front of `c` is untouched, `c` is kept, and among the plugins after `c` the
`FINISHED` ones are removed. -/
theorem poll_last_consumed (f : plugin_t → processing_result_t)
    (xs ys : List plugin_t) (c : plugin_t)
    (hc : f c = processing_result_t.CONSUMED)
    (h : ∀ p ∈ ys, f p ≠ processing_result_t.CONSUMED) :
    poll (xs ++ c :: ys) f = xs ++ c :: ys.filter (keepFn f) := by
  unfold poll
  have hrev : (xs ++ c :: ys).reverse = ys.reverse ++ c :: xs.reverse := by simp
  rw [hrev, pollAux_split f ys.reverse (c :: xs.reverse) []
        (fun p hp => h p (List.mem_reverse.mp hp))]
  simp only [pollAux, hc]
  simp

/-- Claim C9: `do_shutdown()` has the asserted precondition that the state is
neither `NEW` nor `UNKNOWN`; under that precondition it sends exactly one
`shutdown_trigger` message carrying the actor's own address to its
supervisor's address, and changes no actor state itself (so triggering
shutdown of a never-initialized actor is a programming error, not a no-op). -/
theorem claim_C9_do_shutdown (a : actor_base_t) :
    (a.state ≠ state_t.NEW → a.state ≠ state_t.UNKNOWN →
      (do_shutdown a).assertOk = true) ∧
    (a.state = state_t.NEW ∨ a.state = state_t.UNKNOWN →
      (do_shutdown a).assertOk = false) ∧
    (do_shutdown a).actor = a ∧
    (do_shutdown a).effects
      = [Effect.shutdownTrigger a.supervisorAddress a.address] := by
  refine ⟨?_, ?_, rfl, rfl⟩
  · intro h1 h2; simp [do_shutdown, h1, h2]
  · rintro (h | h) <;> simp [do_shutdown, h]

/-- Witness for claim C9 at a concrete operational actor. -/
theorem claim_C9_witness :
    (sampleActor state_t.OPERATIONAL).state ≠ state_t.NEW ∧
    (sampleActor state_t.OPERATIONAL).state ≠ state_t.UNKNOWN ∧
    (do_shutdown (sampleActor state_t.OPERATIONAL)).assertOk = true :=
  ⟨by decide, by decide,
   (claim_C9_do_shutdown (sampleActor state_t.OPERATIONAL)).1 (by decide) (by decide)⟩

/-- Claim C6: `unsubscribe(handler, address, on_done)` sends, to the handler's
owning actor's address, exactly one `unsubscription_confirmation` carrying the
point `{handler, address}` and the callback when the address's owning
supervisor is this supervisor, and otherwise exactly one
`external_unsubscription` carrying the point (and no
`unsubscription_confirmation`). -/
theorem claim_C6_unsubscribe (a : actor_base_t) (h : handler_t) (addr : Address)
    (cb : Option Callback) :
    (addr.supervisor = a.selfId →
      (unsubscribe a h addr cb).effects
        = [Effect.unsubscriptionConfirmation h.actorAddress ⟨h, addr⟩ cb]) ∧
    (addr.supervisor ≠ a.selfId →
      (unsubscribe a h addr cb).effects
        = [Effect.externalUnsubscription h.actorAddress ⟨h, addr⟩]) := by
  constructor <;> intro hl <;> simp [unsubscribe, hl]

/-- Witness for claim C6: one local and one external concrete unsubscription. -/
theorem claim_C6_witness :
    ((⟨0, 2⟩ : Address).supervisor = (sampleActor state_t.OPERATIONAL).selfId ∧
      (unsubscribe (sampleActor state_t.OPERATIONAL) ⟨⟨0, 1⟩, 4⟩ ⟨0, 2⟩ (some 3)).effects
        = [Effect.unsubscriptionConfirmation ⟨0, 1⟩ ⟨⟨⟨0, 1⟩, 4⟩, ⟨0, 2⟩⟩ (some 3)]) ∧
    ((⟨1, 2⟩ : Address).supervisor ≠ (sampleActor state_t.OPERATIONAL).selfId ∧
      (unsubscribe (sampleActor state_t.OPERATIONAL) ⟨⟨0, 1⟩, 4⟩ ⟨1, 2⟩ none).effects
        = [Effect.externalUnsubscription ⟨0, 1⟩ ⟨⟨⟨0, 1⟩, 4⟩, ⟨1, 2⟩⟩]) :=
  ⟨⟨rfl, (claim_C6_unsubscribe (sampleActor state_t.OPERATIONAL) ⟨⟨0, 1⟩, 4⟩ ⟨0, 2⟩
      (some 3)).1 rfl⟩,
   ⟨by decide, (claim_C6_unsubscribe (sampleActor state_t.OPERATIONAL) ⟨⟨0, 1⟩, 4⟩ ⟨1, 2⟩
      none).2 (by decide)⟩⟩

/-- Claim C10: on the external path of `unsubscribe` the code asserts
`!callback`, so the call's assertion holds exactly when the callback is
absent, and the emitted `external_unsubscription` carries no callback; on the
local path no such assertion restricts the callback. -/
theorem claim_C10_external_callback (a : actor_base_t) (h : handler_t)
    (addr : Address) (cb : Option Callback) :
    (addr.supervisor ≠ a.selfId →
      ((unsubscribe a h addr cb).assertOk = true ↔ cb = none) ∧
      (unsubscribe a h addr cb).effects
        = [Effect.externalUnsubscription h.actorAddress ⟨h, addr⟩]) ∧
    (addr.supervisor = a.selfId → (unsubscribe a h addr cb).assertOk = true) := by
  constructor <;> intro hl <;> simp [unsubscribe, hl]

/-- Witness for claim C10: a concrete external unsubscription attempted with a
callback fails the assertion; without a callback it passes. -/
theorem claim_C10_witness :
    (⟨1, 2⟩ : Address).supervisor ≠ (sampleActor state_t.OPERATIONAL).selfId ∧
    ((unsubscribe (sampleActor state_t.OPERATIONAL) ⟨⟨0, 1⟩, 4⟩ ⟨1, 2⟩
        (some 3)).assertOk = true ↔ (some 3 : Option Callback) = none) :=
  ⟨by decide,
   ((claim_C10_external_callback (sampleActor state_t.OPERATIONAL) ⟨⟨0, 1⟩, 4⟩ ⟨1, 2⟩
      (some 3)).1 (by decide)).1⟩

/-- Claim C2: for an actor in state `INITIALIZING` holding an init request,
`init_continue()` walks `init_plugins` from the front: every plugin whose
`handle_init(init_request)` returns `true` is popped from the front, the
first plugin returning `false` stops the walk with all remaining plugins
(itself included) still in the list, and exactly when `init_plugins` becomes
empty `init_finish()` runs: it replies to the stored init request, clears it,
and sets the state to `INITIALIZED`. -/
theorem claim_C2_init_continue (a : actor_base_t) (r : Nat)
    (hs : a.state = state_t.INITIALIZING) (hr : a.init_request = some r) :
    (init_continue a).assertOk = true ∧
    (init_continue a).actor.init_plugins
      = a.init_plugins.dropWhile (fun p => p.handleInit (some r)) ∧
    (∀ p ∈ a.init_plugins.takeWhile (fun p => p.handleInit (some r)),
      p.handleInit (some r) = true) ∧
    (∀ p, (init_continue a).actor.init_plugins.head? = some p →
      p.handleInit (some r) = false) ∧
    ((init_continue a).actor.init_plugins = []
      ↔ ∀ p ∈ a.init_plugins, p.handleInit (some r) = true) ∧
    ((init_continue a).actor.init_plugins = [] →
      (init_continue a).actor.state = state_t.INITIALIZED ∧
      (init_continue a).actor.init_request = none ∧
      (init_continue a).effects = [Effect.replyInit r]) ∧
    ((init_continue a).actor.init_plugins ≠ [] →
      (init_continue a).actor.state = state_t.INITIALIZING ∧
      (init_continue a).actor.init_request = some r ∧
      (init_continue a).effects = []) := by
  have htake : ∀ p ∈ a.init_plugins.takeWhile (fun p => p.handleInit (some r)),
      p.handleInit (some r) = true :=
    fun p hp => mem_takeWhile_true (fun q => q.handleInit (some r)) _ p hp
  have hwalk : frontWalk (fun p => p.handleInit (some r)) a.init_plugins
      = a.init_plugins.dropWhile (fun p => p.handleInit (some r)) :=
    frontWalk_eq_dropWhile _ _
  by_cases hd : a.init_plugins.dropWhile (fun p => p.handleInit (some r)) = []
  · have hcomp : init_continue a
        = { assertOk := true,
            actor :=
              { a with init_plugins := [], init_request := none,
                       state := state_t.INITIALIZED },
            effects := [Effect.replyInit r] } := by
      simp [init_continue, init_finish, hr, hwalk, hd, hs]
    refine ⟨?_, ?_, htake, ?_, ?_, ?_, ?_⟩
    · simp [hcomp]
    · simp [hcomp, hd]
    · intro p hp
      rw [hcomp] at hp
      simp at hp
    · constructor
      · intro _
        exact List.dropWhile_eq_nil_iff.mp hd
      · intro _
        simp [hcomp]
    · intro _
      refine ⟨?_, ?_, ?_⟩ <;> simp [hcomp]
    · intro hne
      exact absurd (by simp [hcomp]) hne
  · have hcomp : init_continue a
        = { assertOk := true,
            actor :=
              { a with init_plugins :=
                  a.init_plugins.dropWhile (fun p => p.handleInit (some r)) },
            effects := [] } := by
      simp [init_continue, hr, hwalk, List.isEmpty_iff, hd, hs]
    refine ⟨?_, ?_, htake, ?_, ?_, ?_, ?_⟩
    · simp [hcomp]
    · simp [hcomp]
    · intro p hp
      rw [hcomp] at hp
      exact head?_dropWhile_false (fun q => q.handleInit (some r)) a.init_plugins p hp
    · rw [hcomp]
      exact List.dropWhile_eq_nil_iff
    · intro he
      rw [hcomp] at he
      exact absurd he hd
    · intro _
      refine ⟨?_, ?_, ?_⟩ <;> simp [hcomp, hs, hr]

/-- Witness for claim C2: the sample initializing actor pops its first plugin
(whose handler returns true) and suspends on the second. -/
theorem claim_C2_witness :
    (sampleActor state_t.INITIALIZING).state = state_t.INITIALIZING ∧
    (sampleActor state_t.INITIALIZING).init_request = some 7 ∧
    (init_continue (sampleActor state_t.INITIALIZING)).actor.init_plugins
      = (sampleActor state_t.INITIALIZING).init_plugins.dropWhile
          (fun p => p.handleInit (some 7)) :=
  ⟨rfl, rfl,
   (claim_C2_init_continue (sampleActor state_t.INITIALIZING) 7 rfl rfl).2.1⟩

/-- Claim C3: for an actor in state `SHUTTING_DOWN`, `shutdown_continue()`
consumes `shutdown_plugins` from the back: every plugin whose
`handle_shutdown(shutdown_request)` returns `true` is popped from the back,
the first plugin returning `false` suspends progress, and exactly when
`shutdown_plugins` becomes empty `shutdown_finish()` runs: it replies to the
stored shutdown request only when one is present (it may be absent, e.g. for
a root supervisor) and in either case sets the state to `SHUT_DOWN`. -/
theorem claim_C3_shutdown_continue (a : actor_base_t)
    (hs : a.state = state_t.SHUTTING_DOWN) :
    (shutdown_continue a).assertOk = true ∧
    (shutdown_continue a).actor.shutdown_plugins
      = (a.shutdown_plugins.reverse.dropWhile
          (fun p => p.handleShutdown a.shutdown_request)).reverse ∧
    (∀ p ∈ a.shutdown_plugins.reverse.takeWhile
        (fun p => p.handleShutdown a.shutdown_request),
      p.handleShutdown a.shutdown_request = true) ∧
    (∀ p, (shutdown_continue a).actor.shutdown_plugins.getLast? = some p →
      p.handleShutdown a.shutdown_request = false) ∧
    ((shutdown_continue a).actor.shutdown_plugins = []
      ↔ ∀ p ∈ a.shutdown_plugins, p.handleShutdown a.shutdown_request = true) ∧
    ((shutdown_continue a).actor.shutdown_plugins = [] →
      (shutdown_continue a).actor.state = state_t.SHUTTED_DOWN ∧
      (shutdown_continue a).actor.shutdown_request = none ∧
      (shutdown_continue a).effects
        = a.shutdown_request.toList.map Effect.replyShutdown ∧
      (∀ r, a.shutdown_request = some r →
        (shutdown_continue a).effects = [Effect.replyShutdown r]) ∧
      (a.shutdown_request = none → (shutdown_continue a).effects = [])) ∧
    ((shutdown_continue a).actor.shutdown_plugins ≠ [] →
      (shutdown_continue a).actor.state = state_t.SHUTTING_DOWN ∧
      (shutdown_continue a).actor.shutdown_request = a.shutdown_request ∧
      (shutdown_continue a).effects = []) := by
  have htake : ∀ p ∈ a.shutdown_plugins.reverse.takeWhile
      (fun p => p.handleShutdown a.shutdown_request),
      p.handleShutdown a.shutdown_request = true :=
    fun p hp =>
      mem_takeWhile_true (fun q => q.handleShutdown a.shutdown_request) _ p hp
  have hwalk : frontWalk (fun p => p.handleShutdown a.shutdown_request)
        a.shutdown_plugins.reverse
      = a.shutdown_plugins.reverse.dropWhile
          (fun p => p.handleShutdown a.shutdown_request) :=
    frontWalk_eq_dropWhile _ _
  by_cases hd : a.shutdown_plugins.reverse.dropWhile
      (fun p => p.handleShutdown a.shutdown_request) = []
  · have hcomp : shutdown_continue a
        = { assertOk := true,
            actor :=
              { a with shutdown_plugins := [], shutdown_request := none,
                       state := state_t.SHUTTED_DOWN },
            effects := a.shutdown_request.toList.map Effect.replyShutdown } := by
      simp [shutdown_continue, shutdown_finish, hwalk, hd, hs]
    refine ⟨?_, ?_, htake, ?_, ?_, ?_, ?_⟩
    · simp [hcomp]
    · simp [hcomp, hd]
    · intro p hp
      rw [hcomp] at hp
      simp at hp
    · constructor
      · intro _ p hp
        exact List.dropWhile_eq_nil_iff.mp hd p (List.mem_reverse.mpr hp)
      · intro _
        simp [hcomp]
    · intro _
      refine ⟨?_, ?_, ?_, ?_, ?_⟩
      · simp [hcomp]
      · simp [hcomp]
      · simp [hcomp]
      · intro r hrr
        simp [hcomp, hrr]
      · intro hrr
        simp [hcomp, hrr]
    · intro hne
      exact absurd (by simp [hcomp]) hne
  · have hcomp : shutdown_continue a
        = { assertOk := true,
            actor :=
              { a with shutdown_plugins :=
                  (a.shutdown_plugins.reverse.dropWhile
                    (fun p => p.handleShutdown a.shutdown_request)).reverse },
            effects := [] } := by
      simp [shutdown_continue, hwalk, List.isEmpty_iff, hd, hs]
    refine ⟨?_, ?_, htake, ?_, ?_, ?_, ?_⟩
    · simp [hcomp]
    · simp [hcomp]
    · intro p hp
      rw [hcomp] at hp
      simp only [List.getLast?_reverse] at hp
      exact head?_dropWhile_false
        (fun q => q.handleShutdown a.shutdown_request) a.shutdown_plugins.reverse p hp
    · rw [hcomp]
      show (a.shutdown_plugins.reverse.dropWhile
          (fun p => p.handleShutdown a.shutdown_request)).reverse = [] ↔ _
      rw [List.reverse_eq_nil_iff]
      constructor
      · intro he p hp
        exact List.dropWhile_eq_nil_iff.mp he p (List.mem_reverse.mpr hp)
      · intro hall
        exact List.dropWhile_eq_nil_iff.mpr
          (fun p hp => hall p (List.mem_reverse.mp hp))
    · intro he
      rw [hcomp] at he
      simp only [List.reverse_eq_nil_iff] at he
      exact absurd he hd
    · intro _
      refine ⟨?_, ?_, ?_⟩ <;> simp [hcomp, hs]

/-- Witness for claim C3: the sample shutting-down actor pops its last plugin
(whose handler returns true) and suspends on the first. -/
theorem claim_C3_witness :
    (sampleActor state_t.SHUTTING_DOWN).state = state_t.SHUTTING_DOWN ∧
    (shutdown_continue (sampleActor state_t.SHUTTING_DOWN)).actor.shutdown_plugins
      = ((sampleActor state_t.SHUTTING_DOWN).shutdown_plugins.reverse.dropWhile
          (fun p => p.handleShutdown
            (sampleActor state_t.SHUTTING_DOWN).shutdown_request)).reverse :=
  ⟨rfl,
   (claim_C3_shutdown_continue (sampleActor state_t.SHUTTING_DOWN) rfl).2.1⟩

/-- Characterization of the `deactivate_plugins` loop: over any walked
sequence it inserts the identities of the plugins whose actor pointer is
still set and emits, for each such plugin in walk order, the insertion event
followed by the `deactivate()` call. -/
theorem deactivateLoop_spec (l : List plugin_t) :
    ∀ d, deactivateLoop d l
      = (d ∪ ((l.filter (fun q => q.actor)).map (fun q => q.identity)).toFinset,
         (l.filter (fun q => q.actor)).flatMap
           (fun q => [Effect.insertDeactivating q.identity,
                      Effect.pluginDeactivate q.identity])) := by
  induction l with
  | nil => intro d; simp [deactivateLoop]
  | cons q rest ih =>
    intro d
    cases hq : q.actor
    · simp [deactivateLoop, hq, ih d]
    · simp [deactivateLoop, hq, ih (insert q.identity d),
        Finset.insert_union, Finset.union_insert]

/-- Claim C4: `commit_plugin_activation(plugin, false)` runs
`deactivate_plugins()`, which walks the plugin list in reverse order and, for
each still-active plugin (its `actor` pointer set), first inserts the
plugin's identity into `deactivating_plugins` and then calls its
`deactivate()`, skipping inactive plugins; the destructor's assertion holds
exactly when `deactivating_plugins` is empty, and
`commit_plugin_deactivation` erases a plugin's identity from that set. -/
theorem claim_C4_deactivation (a : actor_base_t) (p : plugin_t) :
    commit_plugin_activation a p false = deactivate_plugins a ∧
    (deactivate_plugins a).effects
      = (a.plugins.reverse.filter (fun q => q.actor)).flatMap
          (fun q => [Effect.insertDeactivating q.identity,
                     Effect.pluginDeactivate q.identity]) ∧
    (deactivate_plugins a).actor.deactivating_plugins
      = a.deactivating_plugins
        ∪ ((a.plugins.reverse.filter (fun q => q.actor)).map
            (fun q => q.identity)).toFinset ∧
    (deactivate_plugins a).actor.state = a.state ∧
    (actor_destructor_assert a = true ↔ a.deactivating_plugins = ∅) ∧
    (commit_plugin_deactivation a p).deactivating_plugins
      = a.deactivating_plugins.erase p.identity := by
  refine ⟨rfl, ?_, ?_, rfl, by simp [actor_destructor_assert], rfl⟩
  · simp [deactivate_plugins, deactivateLoop_spec]
  · simp [deactivate_plugins, deactivateLoop_spec]

/-- Claim C5: a subscription or unsubscription confirmation polls the
corresponding plugin slot in reverse order (last installed plugin first):
`IGNORED` skips to the previous plugin, `CONSUMED` stops the scan keeping the
plugin, `FINISHED` removes exactly that plugin and continues with the earlier
ones; so when no scanned plugin consumes, the slot keeps exactly its
non-`FINISHED` plugins, and when `c` is the last consuming plugin, the slot
keeps everything up to `c` and filters the plugins after `c`. -/
theorem claim_C5_slot_poll (a : actor_base_t) (m : subscription_confirmation_t)
    (m2 : unsubscription_confirmation_t) (xs ys xs2 ys2 : List plugin_t)
    (c c2 : plugin_t) :
    ((∀ p ∈ a.subscription_plugins,
        p.handleSubscription m ≠ processing_result_t.CONSUMED) →
      (on_subscription a m).actor.subscription_plugins
        = a.subscription_plugins.filter
            (keepFn (fun p => p.handleSubscription m))) ∧
    (a.subscription_plugins = xs ++ c :: ys →
      c.handleSubscription m = processing_result_t.CONSUMED →
      (∀ p ∈ ys, p.handleSubscription m ≠ processing_result_t.CONSUMED) →
      (on_subscription a m).actor.subscription_plugins
        = xs ++ c :: ys.filter (keepFn (fun p => p.handleSubscription m))) ∧
    ((∀ p ∈ a.unsubscription_plugins,
        p.handleUnsubscription m2 ≠ processing_result_t.CONSUMED) →
      (on_unsubscription a m2).actor.unsubscription_plugins
        = a.unsubscription_plugins.filter
            (keepFn (fun p => p.handleUnsubscription m2))) ∧
    (a.unsubscription_plugins = xs2 ++ c2 :: ys2 →
      c2.handleUnsubscription m2 = processing_result_t.CONSUMED →
      (∀ p ∈ ys2, p.handleUnsubscription m2 ≠ processing_result_t.CONSUMED) →
      (on_unsubscription a m2).actor.unsubscription_plugins
        = xs2 ++ c2 :: ys2.filter
            (keepFn (fun p => p.handleUnsubscription m2))) := by
  refine ⟨?_, ?_, ?_, ?_⟩
  · intro h
    show poll a.subscription_plugins (fun p => p.handleSubscription m) = _
    exact poll_eq_filter _ _ h
  · intro hsplit hc h
    show poll a.subscription_plugins (fun p => p.handleSubscription m) = _
    rw [hsplit]
    exact poll_last_consumed _ _ _ _ hc h
  · intro h
    show poll a.unsubscription_plugins (fun p => p.handleUnsubscription m2) = _
    exact poll_eq_filter _ _ h
  · intro hsplit hc h
    show poll a.unsubscription_plugins (fun p => p.handleUnsubscription m2) = _
    rw [hsplit]
    exact poll_last_consumed _ _ _ _ hc h

/-- Witness for claim C5: on the sample actor's slot the scan from the back
removes the finishing plugin and stops at the consuming one. -/
theorem claim_C5_witness :
    (sampleActor state_t.OPERATIONAL).subscription_plugins
      = [pluginYes] ++ pluginEat :: [pluginNo] ∧
    pluginEat.handleSubscription sampleSubMsg = processing_result_t.CONSUMED ∧
    (∀ p ∈ [pluginNo],
      p.handleSubscription sampleSubMsg ≠ processing_result_t.CONSUMED) ∧
    (on_subscription (sampleActor state_t.OPERATIONAL)
        sampleSubMsg).actor.subscription_plugins
      = [pluginYes] ++ pluginEat :: ([pluginNo].filter
          (keepFn (fun p => p.handleSubscription sampleSubMsg))) :=
  ⟨rfl, rfl, by decide,
   (claim_C5_slot_poll (sampleActor state_t.OPERATIONAL) sampleSubMsg
      sampleUnsubMsg [pluginYes] [pluginNo] [] [] pluginEat
      pluginYes).2.1 rfl rfl (by decide)⟩

/-- Claim C1: every lifecycle driver step moves the state to a successor
under the monotone FSM `NEW → INITIALIZING → INITIALIZED → OPERATIONAL →
SHUTTING_DOWN → SHUT_DOWN` (single exception `INITIALIZING → SHUTTING_DOWN`
on error), and no sequence of the lifecycle entry points `init_start`,
`init_finish`, `on_start`, `shutdown_start`, `shutdown_finish` returns an
actor to `NEW` or `INITIALIZING` after it has left them. -/
theorem claim_C1_lifecycle_monotone :
    (∀ a b : actor_base_t,
      LifecycleStep a b → lifecycleSucc a.state b.state = true) ∧
    (∀ a b : actor_base_t, Relation.ReflTransGen LifecycleStep a b →
      a.state ≠ state_t.NEW → a.state ≠ state_t.INITIALIZING →
      b.state ≠ state_t.NEW ∧ b.state ≠ state_t.INITIALIZING) := by
  constructor
  · intro a b h
    cases h with
    | stepInitStart ha => simp [init_start, ha, lifecycleSucc]
    | stepInitFinish ha => simp [init_finish, ha, lifecycleSucc]
    | stepOnStart ha => simp [on_start, ha, lifecycleSucc]
    | stepShutdownStart ha =>
      rcases ha with ha | ha <;> simp [shutdown_start, ha, lifecycleSucc]
    | stepShutdownFinish ha => simp [shutdown_finish, ha, lifecycleSucc]
  · intro a b h
    induction h with
    | refl => exact fun h1 h2 => ⟨h1, h2⟩
    | tail hab hbc ih =>
      intro h1 h2
      obtain ⟨hc1, hc2⟩ := ih h1 h2
      cases hbc with
      | stepInitStart hx => exact absurd hx hc1
      | stepInitFinish hx => exact absurd hx hc2
      | stepOnStart hx => simp [on_start]
      | stepShutdownStart hx => simp [shutdown_start]
      | stepShutdownFinish hx => simp [shutdown_finish]

/-- Witness for claim C1: a concrete `on_start` step from `INITIALIZED`. -/
theorem claim_C1_witness :
    lifecycleSucc (sampleActor state_t.INITIALIZED).state
      (on_start (sampleActor state_t.INITIALIZED)).state = true ∧
    ((on_start (sampleActor state_t.INITIALIZED)).state ≠ state_t.NEW ∧
     (on_start (sampleActor state_t.INITIALIZED)).state ≠ state_t.INITIALIZING) :=
  ⟨claim_C1_lifecycle_monotone.1 _ _
     (LifecycleStep.stepOnStart (sampleActor state_t.INITIALIZED) rfl),
   claim_C1_lifecycle_monotone.2 _ _
     (Relation.ReflTransGen.single
       (LifecycleStep.stepOnStart (sampleActor state_t.INITIALIZED) rfl))
     (by decide) (by decide)⟩

/-- Claim C7 fails on `message.hpp`: `message_t` stores no destination, so the
type of messages with `Unit` payload is a singleton and is not the spec's
envelope of a destination address together with a payload — shown at the two
concrete envelopes with destinations `⟨0, 0⟩` and `⟨1, 0⟩` — and no
destination-taking constructor with a destination projection exists either. -/
theorem claim_C7_counterexample :
    (¬ Nonempty (message_t Unit ≃ SpecMessage Unit)) ∧
    (¬ ∃ (mk : Address → Unit → message_t Unit)
         (dst : message_t Unit → Address),
        ∀ ad : Address, dst (mk ad ()) = ad) := by
  have hsub : ∀ x y : message_t Unit, x = y := by
    rintro ⟨⟨⟩⟩ ⟨⟨⟩⟩
    rfl
  constructor
  · rintro ⟨e⟩
    have h01 : (⟨⟨0, 0⟩, ()⟩ : SpecMessage Unit) = ⟨⟨1, 0⟩, ()⟩ := by
      have h := hsub (e.symm ⟨⟨0, 0⟩, ()⟩) (e.symm ⟨⟨1, 0⟩, ()⟩)
      have h2 := congrArg e h
      simp at h2
    have h3 := congrArg (fun msg => msg.destination.supervisor) h01
    exact absurd h3 (by decide)
  · rintro ⟨mk, dst, hd⟩
    have h := congrArg dst (hsub (mk ⟨0, 0⟩ ()) (mk ⟨1, 0⟩ ()))
    rw [hd ⟨0, 0⟩, hd ⟨1, 0⟩] at h
    have h3 := congrArg (fun ad => ad.supervisor) h
    exact absurd h3 (by decide)

/-- Claim C7 amended: every `message_t` value of `message.hpp` consists of
exactly a payload (the envelope stores no destination address), and
constructing a message from the constructor arguments yields a message whose
payload equals the payload built from those arguments. -/
theorem claim_C7_amended (T : Type) (p : T) :
    (message_t.mk p).payload = p ∧
    Function.Bijective (fun msg : message_t T => msg.payload) :=
  ⟨rfl,
   fun x y hxy => by cases x; cases y; simpa using hxy,
   fun q => ⟨⟨q⟩, rfl⟩⟩

/-- Claim C8: on a `link_request` carrying `client_addr` delivered at
`server_addr`, the server replies `link_response` and records
`(server_addr, client_addr)` in `linked_clients` when its `unlink_timeout`
is configured, and replies with the `actor_not_linkable` error (changing
nothing) otherwise. -/
theorem claim_C8_link_request (a : actor_base_t)
    (server_addr client_addr : Address) :
    (∀ t, a.unlink_timeout = some t →
      (on_link_request a server_addr client_addr).2 = LinkReply.linkResponse ∧
      (on_link_request a server_addr client_addr).1.linked_clients
        = insert (server_addr, client_addr) a.linked_clients) ∧
    (a.unlink_timeout = none →
      (on_link_request a server_addr client_addr).2
          = LinkReply.actorNotLinkable ∧
      (on_link_request a server_addr client_addr).1 = a) := by
  constructor
  · intro t ht
    constructor <;> simp [on_link_request, ht]
  · intro ht
    constructor <;> simp [on_link_request, ht]

/-- Witness for claim C8 at the sample actor, whose unlink timeout is set. -/
theorem claim_C8_witness :
    (sampleActor state_t.OPERATIONAL).unlink_timeout = some 5 ∧
    (on_link_request (sampleActor state_t.OPERATIONAL) ⟨0, 1⟩ ⟨1, 3⟩).2
      = LinkReply.linkResponse :=
  ⟨rfl,
   ((claim_C8_link_request (sampleActor state_t.OPERATIONAL)
      ⟨0, 1⟩ ⟨1, 3⟩).1 5 rfl).1⟩
